import Mathlib

/-!
# Schema Enforcer — verification of the Schema Manager design

A shallow embedding of the schema-enforcer repository's core: the Schema
Store, Matcher, Validator, Fixture Tester and Schema Manager orchestration,
plus the helpers of `tasks.py`.  The Schema Manager subsystem itself
(`schema_enforcer/schemas/manager.py` and friends) is not part of the
visible source tree — only its tests and callers are — so those components
are modelled from the design document; `tasks.py` is embedded directly
from the source.
-/

namespace SchemaEnforcer

/-- Outcome of one validation run: PASS or FAIL. -/
inductive Outcome where
  | PASS : Outcome
  | FAIL : Outcome
deriving DecidableEq

/-- An error record: a path of keys/indices from the document root to the
offending value, plus a human-readable message. -/
structure ErrorRecord where
  path : List String
  message : String
deriving DecidableEq

/-- Modelled from the spec: instance documents are "arbitrary nested
mapping/sequence/scalar structure", represented as a tagged-union tree
(object/array/string/number/boolean/null). -/
inductive Doc where
  | obj : List (String × Doc) → Doc
  | arr : List Doc → Doc
  | str : String → Doc
  | num : Int → Doc
  | boolean : Bool → Doc
  | null : Doc

/-- Modelled from the spec: a JSON-Schema-style definition tree (type,
required and nested object/array rules), the subset the design document
describes for the Validator. -/
inductive SchemaDef where
  | obj (required : List String) (props : List (String × SchemaDef)) : SchemaDef
  | arr (items : SchemaDef) : SchemaDef
  | string : SchemaDef
  | number : SchemaDef
  | boolean : SchemaDef
  | anyDef : SchemaDef

/-- Look up a key among the fields of an object document node. -/
def lookupField (fields : List (String × Doc)) (k : String) : Option Doc :=
  (fields.find? (fun kv => kv.1 == k)).map Prod.snd

mutual

/-- Modelled from the spec: the Validator's violation collector
(`schema_enforcer`'s validation pass is not in the visible source).  It
walks the document root-to-leaf, collecting every violation in one pass:
for an object node, missing-required errors first, then each declared
property's subtree in declaration order; for an array node, each element
in index order; type mismatches yield a single located error. -/
def collectErrors (path : List String) : SchemaDef → Doc → List ErrorRecord
  | .obj required props, .obj fields =>
      (required.filter (fun k => (lookupField fields k).isNone)).map
        (fun k => ⟨path, "required property " ++ k ++ " missing"⟩)
      ++ collectProps path props fields
  | .obj _ _, _ => [⟨path, "expected type object"⟩]
  | .arr items, .arr elems => collectItems path items 0 elems
  | .arr _, _ => [⟨path, "expected type array"⟩]
  | .string, .str _ => []
  | .string, _ => [⟨path, "expected type string"⟩]
  | .number, .num _ => []
  | .number, _ => [⟨path, "expected type number"⟩]
  | .boolean, .boolean _ => []
  | .boolean, _ => [⟨path, "expected type boolean"⟩]
  | .anyDef, _ => []

/-- Collect violations of an object node's declared properties, in
declaration order; a property absent from the instance contributes no
errors here (absence is reported by the `required` check). -/
def collectProps (path : List String) :
    List (String × SchemaDef) → List (String × Doc) → List ErrorRecord
  | [], _ => []
  | (k, sub) :: rest, fields =>
      (match lookupField fields k with
       | some d => collectErrors (path ++ [k]) sub d
       | none => [])
      ++ collectProps path rest fields

/-- Collect violations of the elements of an array node, in index order. -/
def collectItems (path : List String) (items : SchemaDef) (i : Nat) :
    List Doc → List ErrorRecord
  | [] => []
  | d :: rest =>
      collectErrors (path ++ [toString i]) items d ++ collectItems path items (i + 1) rest

end

/-- Modelled from the spec: a Schema carries its declared "applies-to"
key set (populated at load time from the raw schema document) and its
definition tree. -/
structure Schema where
  appliesTo : List String
  sdef : SchemaDef

/-- An instance document: source path plus parsed content. -/
structure InstanceDoc where
  path : String
  doc : Doc

/-- A validation result: schema identifier, instance path, outcome, and
the ordered list of error records (empty on PASS).  Immutable once
produced. -/
structure ValidationResult where
  schemaId : String
  instancePath : String
  outcome : Outcome
  errors : List ErrorRecord

/-- Modelled from the spec: `validate(schema, instance_document) ->
ValidationResult` — a pure function of the schema and the instance;
outcome is PASS exactly when the collected violation list is empty. -/
def validate (sid : String) (s : Schema) (inst : InstanceDoc) : ValidationResult :=
  let errs := collectErrors [] s.sdef inst.doc
  ⟨sid, inst.path, if errs.isEmpty then .PASS else .FAIL, errs⟩

/-! ## Schema Store -/

/-- A candidate schema file as the Schema Store sees it: its path relative
to the schema root (forward-slash form) and the outcome of parsing it. -/
structure SchemaFile where
  path : String
  parsed : Except String Schema

/-- The only fatal load failure: two files normalizing to the same schema
identifier. -/
inductive LoadFailure where
  | duplicateSchemaIdentifier : LoadFailure
deriving DecidableEq

/-- Split a character list at every occurrence of a separator (the
semantics of Python's `str.split` with a one-character separator). -/
def splitOnChar (sep : Char) : List Char → List (List Char)
  | [] => [[]]
  | c :: cs =>
    match splitOnChar sep cs with
    | [] => if c = sep then [[], [c]] else [[c]]
    | r :: rs => if c = sep then [] :: r :: rs else (c :: r) :: rs

/-- Modelled from the spec: identifier = path relative to root with the
extension stripped, in forward-slash-joined form. -/
def identifierOf (p : String) : String :=
  let parts := splitOnChar '.' p.data
  if parts.length ≤ 1 then p
  else String.intercalate "." (parts.dropLast.map String.mk)

/-- The load errors recorded while walking the root: (path, message) for
every file whose parse failed. -/
def parseErrorsOf (files : List SchemaFile) : List (String × String) :=
  files.filterMap (fun f =>
    match f.parsed with
    | .error m => some (f.path, m)
    | .ok _ => none)

/-- The successfully parsed entries, keyed by identifier, in discovery
order. -/
def parsedEntries (files : List SchemaFile) : List (String × Schema) :=
  files.filterMap (fun f =>
    match f.parsed with
    | .ok s => some (identifierOf f.path, s)
    | .error _ => none)

/-- Order on store entries: lexicographic by identifier. -/
def idLe (a b : String × Schema) : Prop := a.1 ≤ b.1

instance : DecidableRel idLe := fun a b =>
  decidable_of_iff (a.1.toList ≤ b.1.toList) String.le_iff_toList_le.symm

instance : IsTotal (String × Schema) idLe := ⟨fun a b => le_total a.1 b.1⟩

instance : IsTrans (String × Schema) idLe := ⟨fun _ _ _ => le_trans⟩

/-- Strict version of `idLe`, used to show sorted stores with distinct
identifiers are unique. -/
def idLt (a b : String × Schema) : Prop := a.1 < b.1

instance : IsAntisymm (String × Schema) idLt :=
  ⟨fun a _ h h2 => absurd (lt_trans h h2) (lt_irrefl a.1)⟩

/-- Modelled from the spec: `load(root_dir) -> (SchemaStore, load_errors)`.
A file that fails to parse is recorded as a load error and excluded while
loading continues; two files normalizing to the same identifier fail the
whole build with `DuplicateSchemaIdentifier`; the store's iteration order
is lexicographic by identifier, independent of discovery order. -/
def load (files : List SchemaFile) :
    Except LoadFailure (List (String × Schema) × List (String × String)) :=
  if ((parsedEntries files).map Prod.fst).Nodup then
    .ok (List.insertionSort idLe (parsedEntries files), parseErrorsOf files)
  else
    .error .duplicateSchemaIdentifier

/-! ## Matcher -/

/-- The final path component of an instance path. -/
def basename (p : String) : String :=
  match (splitOnChar '/' p.data).getLast? with
  | some cs => String.mk cs
  | none => p

/-- Modelled from the spec: look up the instance path in the explicit
mapping rules — exact match first, then basename match. -/
def findRule (rules : List (String × List String)) (path : String) :
    Option (List String) :=
  match rules.find? (fun r => r.1 == path) with
  | some r => some r.2
  | none =>
    match rules.find? (fun r => r.1 == basename path) with
    | some r => some r.2
    | none => none

/-- The convention-matched identifiers: every store schema whose declared
applies-to key set intersects the instance's top-level keys, in store
(lexicographic) order. -/
def conventionMatches (store : List (String × Schema)) (topKeys : List String) :
    List String :=
  (store.filter (fun e => e.2.appliesTo.any (fun k => topKeys.contains k))).map Prod.fst

/-- Modelled from the spec: `resolve(instance_path, instance_top_level_keys,
mapping_rules, schema_store)` — an explicit rule, when present, is the
authoritative result and convention matching is skipped; otherwise the
convention matches are returned; the empty result is valid. -/
def resolve (path : String) (topKeys : List String)
    (rules : List (String × List String)) (store : List (String × Schema)) :
    List String :=
  match findRule rules path with
  | some ids => ids
  | none => conventionMatches store topKeys

/-! ## Fixture Tester -/

/-- The two fixture groups: documents expected to validate ("pass") and
documents expected to be rejected ("fail"). -/
inductive FixtureGroup where
  | passGroup : FixtureGroup
  | failGroup : FixtureGroup
deriving DecidableEq

/-- A fixture document authored to test a schema, tagged with its group. -/
structure Fixture where
  path : String
  group : FixtureGroup
  doc : Doc

/-- The outcome a fixture's group says the Validator must produce. -/
def expectedOutcome : FixtureGroup → Outcome
  | .passGroup => .PASS
  | .failGroup => .FAIL

/-- A fixture test result: schema identifier, fixture path, expected and
actual outcome. -/
structure FixtureTestResult where
  schemaId : String
  fixturePath : String
  expected : Outcome
  actual : Outcome
deriving DecidableEq

/-- A fixture test result matches when the actual outcome equals the
expected one. -/
def FixtureTestResult.isMatch (r : FixtureTestResult) : Bool :=
  r.expected == r.actual

/-- Modelled from the spec: `test_schema(schema, fixtures)` runs the
Validator on every fixture and compares the actual outcome against the
expectation derived from the fixture's group. -/
def test_schema (sid : String) (s : Schema) (fixtures : List Fixture) :
    List FixtureTestResult :=
  fixtures.map (fun f =>
    ⟨sid, f.path, expectedOutcome f.group, (validate sid s ⟨f.path, f.doc⟩).outcome⟩)

/-! ## Schema Manager orchestration -/

/-- The per-instance outcome of `validate_all`: either the validation
results of the resolved schemas, or the distinguished "unmatched" marker
when zero schemas resolved. -/
inductive InstanceOutcome where
  | validated : List ValidationResult → InstanceOutcome
  | unmatched : String → InstanceOutcome

/-- The top-level keys of an instance document. -/
def topLevelKeys : Doc → List String
  | .obj fields => fields.map Prod.fst
  | _ => []

/-- `get(identifier)` on the store: the schema under an identifier, when
present. -/
def lookupSchema (store : List (String × Schema)) (sid : String) : Option Schema :=
  (store.find? (fun e => e.1 == sid)).map Prod.snd

/-- The per-instance step of `validate_all`: resolve the applicable
schemas via the Matcher, and either run the Validator for each resolved
schema or produce the "unmatched" marker when zero schemas resolved. -/
def validateInstance (rules : List (String × List String))
    (store : List (String × Schema)) (inst : InstanceDoc) : InstanceOutcome :=
  let ids := resolve inst.path (topLevelKeys inst.doc) rules store
  if ids.isEmpty then
    .unmatched inst.path
  else
    .validated (ids.filterMap (fun sid =>
      (lookupSchema store sid).map (fun s => validate sid s inst)))

/-- Modelled from the spec: `validate_all(instances)` — for each instance,
resolve applicable schemas via the Matcher and run the Validator for each;
an instance with zero resolved schemas produces the distinguished
"unmatched" marker rather than any ValidationResult. -/
def validate_all (instances : List InstanceDoc) (rules : List (String × List String))
    (store : List (String × Schema)) : List InstanceOutcome :=
  instances.map (validateInstance rules store)

/-- The ValidationResults one per-instance outcome contributes: those of
its resolved schemas, or none for an unmatched marker. -/
def resultsOfOutcome : InstanceOutcome → List ValidationResult
  | .validated rs => rs
  | .unmatched _ => []

/-- The ValidationResults produced by a `validate_all` pass; unmatched
markers contribute none. -/
def collectValidationResults (outcomes : List InstanceOutcome) : List ValidationResult :=
  outcomes.flatMap resultsOfOutcome

/-- The aggregated results of one run, as handed to `summarize`. -/
structure RunResults where
  validationResults : List ValidationResult
  fixtureResults : List FixtureTestResult
  loadErrors : List (String × String)

/-- Modelled from the spec: `summarize(results)` — overall success iff
every ValidationResult is PASS, every FixtureTestResult matches
expectation, and no load errors occurred. -/
def summarize (r : RunResults) : Bool :=
  r.validationResults.all (fun v => v.outcome == .PASS)
  && r.fixtureResults.all (fun f => f.isMatch)
  && r.loadErrors.isEmpty

/-! ## `tasks.py` helpers (embedded from the source) -/

/-- A Python argument that is either a real `bool` or a string, as
`is_truthy` receives it. -/
inductive PyArg where
  | bool (b : Bool) : PyArg
  | str (s : String) : PyArg
deriving DecidableEq

/-- The true values of `distutils.util.strtobool`. -/
def trueStrings : List String := ["y", "yes", "t", "true", "on", "1"]

/-- The false values of `distutils.util.strtobool`. -/
def falseStrings : List String := ["n", "no", "f", "false", "off", "0"]

/-- ASCII lowercasing of a string, character by character (the fragment of
Python's `str.lower` that `strtobool`'s comparisons depend on). -/
def lowerString (s : String) : String := String.mk (s.data.map Char.toLower)

/-- `distutils.util.strtobool`: lowercases its argument, returns 1 on a
true value, 0 on a false value, and raises ValueError otherwise. -/
def strtobool (val : String) : Except String Nat :=
  if lowerString val ∈ trueStrings then .ok 1
  else if lowerString val ∈ falseStrings then .ok 0
  else .error ("invalid truth value " ++ val)

/-- `tasks.is_truthy`: a `bool` argument is returned unchanged; a string
goes through `strtobool` (so a ValueError propagates), coerced to `bool`. -/
def is_truthy : PyArg → Except String Bool
  | .bool b => .ok b
  | .str s => (strtobool s).map (fun n => n != 0)

/-- One `context.run` invocation: the command string passed and the pty
flag. -/
structure RunCall where
  cmd : String
  pty : Bool
deriving DecidableEq

/-- A single-quote character, as the docker command line embeds it. -/
def singleQuote : String := String.mk [Char.ofNat 39]

/-- The docker command line `run_cmd` builds around `exec_cmd`: the image
`name:image_ver`, with the current working directory mounted at /local. -/
def dockerCommand (pwd name image_ver exec_cmd : String) : String :=
  "docker run -it -v " ++ pwd ++ ":/local " ++ name ++ ":" ++ image_ver
    ++ " sh -c " ++ singleQuote ++ exec_cmd ++ singleQuote

/-- Embeds `tasks.run_cmd` (the name itself is a Lean keyword): when `is_truthy(local)` holds, run `exec_cmd` directly;
otherwise run it wrapped in a docker invocation of `name:image_ver` with
the working directory mounted at /local; either way return the result of
the single `context.run` call (always with pty set). -/
def runCmd {R : Type} (ctxRun : RunCall → R) (pwd exec_cmd name image_ver : String)
    (loc : PyArg) : Except String R :=
  match is_truthy loc with
  | .error e => .error e
  | .ok true => .ok (ctxRun ⟨exec_cmd, true⟩)
  | .ok false => .ok (ctxRun ⟨dockerCommand pwd name image_ver exec_cmd, true⟩)

/-! ## Theorems -/

/-- C1: `summarize(results)` returns overall success if and only if every
ValidationResult is PASS, every FixtureTestResult matches its expected
outcome, and no load errors occurred; a single failure of any of these
kinds makes the overall result failure. -/
theorem summarize_true_iff (r : RunResults) :
    summarize r = true ↔
      ((∀ v ∈ r.validationResults, v.outcome = Outcome.PASS) ∧
       (∀ f ∈ r.fixtureResults, f.isMatch = true) ∧
       r.loadErrors = []) := by
  simp [summarize, List.all_eq_true, List.isEmpty_iff, and_assoc]

/-- C5: `validate` is a deterministic pure function of the schema and the
instance: any two calls with unchanged inputs produce identical
ValidationResults (same outcome, same ordered error list). -/
theorem validate_deterministic (sid sid2 : String) (s s2 : Schema)
    (inst inst2 : InstanceDoc)
    (hsid : sid = sid2) (hs : s = s2) (hinst : inst = inst2) :
    validate sid s inst = validate sid2 s2 inst2 ∧
      (validate sid s inst).outcome = (validate sid2 s2 inst2).outcome ∧
      (validate sid s inst).errors = (validate sid2 s2 inst2).errors := by
  subst hsid; subst hs; subst hinst
  exact ⟨rfl, rfl, rfl⟩

/-- Witness for C5 at a concrete schema and instance. -/
theorem validate_deterministic_witness :
    validate "schemas/dns_servers" ⟨["dns_servers"], .obj ["dns_servers"] []⟩
        ⟨"hostvars/router1/dns.yml", .obj [("dns_servers", .arr [])]⟩
      = validate "schemas/dns_servers" ⟨["dns_servers"], .obj ["dns_servers"] []⟩
        ⟨"hostvars/router1/dns.yml", .obj [("dns_servers", .arr [])]⟩ :=
  (validate_deterministic "schemas/dns_servers" "schemas/dns_servers"
    ⟨["dns_servers"], .obj ["dns_servers"] []⟩ ⟨["dns_servers"], .obj ["dns_servers"] []⟩
    ⟨"hostvars/router1/dns.yml", .obj [("dns_servers", .arr [])]⟩
    ⟨"hostvars/router1/dns.yml", .obj [("dns_servers", .arr [])]⟩
    rfl rfl rfl).1

/-- C9 counterexample: the claim says any string other than the twelve
listed ones raises ValueError, but `is_truthy "Yes"` returns True because
`strtobool` lowercases its argument first. -/
theorem is_truthy_claim_counterexample :
    ("Yes" ∉ trueStrings ∧ "Yes" ∉ falseStrings) ∧
      is_truthy (.str "Yes") = .ok true := by
  constructor
  · constructor <;> decide
  · rfl

/-- A false value of `strtobool` is never also a true value. -/
lemma mem_falseStrings_not_mem_trueStrings :
    ∀ v ∈ falseStrings, v ∉ trueStrings := by
  intro v hv
  simp only [falseStrings, List.mem_cons, List.not_mem_nil, or_false] at hv
  rcases hv with rfl | rfl | rfl | rfl | rfl | rfl <;> decide

/-- C9 (amended): `is_truthy` returns a bool argument unchanged; for a
string it is case-insensitive — it returns True when the lowercased string
is among y, yes, t, true, on, 1, returns False when it is among n, no, f,
false, off, 0, and raises ValueError for every other string. -/
theorem is_truthy_amended :
    (∀ b, is_truthy (.bool b) = .ok b) ∧
    (∀ s, lowerString s ∈ trueStrings → is_truthy (.str s) = .ok true) ∧
    (∀ s, lowerString s ∈ falseStrings → is_truthy (.str s) = .ok false) ∧
    (∀ s, lowerString s ∉ trueStrings → lowerString s ∉ falseStrings →
      is_truthy (.str s) = .error ("invalid truth value " ++ s)) := by
  refine ⟨fun b => rfl, fun s hs => ?_, fun s hs => ?_, fun s hs1 hs2 => ?_⟩
  · simp only [is_truthy, strtobool]
    rw [if_pos hs]
    rfl
  · have hnot := mem_falseStrings_not_mem_trueStrings (lowerString s) hs
    simp only [is_truthy, strtobool]
    rw [if_neg hnot, if_pos hs]
    rfl
  · simp only [is_truthy, strtobool]
    rw [if_neg hs1, if_neg hs2]
    rfl

/-- Witness for C9's amended theorem at the concrete strings TRUE, Off
and banana. -/
theorem is_truthy_amended_witness :
    (lowerString "TRUE" ∈ trueStrings ∧ is_truthy (.str "TRUE") = .ok true) ∧
    (lowerString "Off" ∈ falseStrings ∧ is_truthy (.str "Off") = .ok false) ∧
    (lowerString "banana" ∉ trueStrings ∧ lowerString "banana" ∉ falseStrings ∧
      is_truthy (.str "banana") = .error ("invalid truth value " ++ "banana")) :=
  ⟨⟨by decide, is_truthy_amended.2.1 "TRUE" (by decide)⟩,
   ⟨by decide, is_truthy_amended.2.2.1 "Off" (by decide)⟩,
   ⟨by decide, by decide,
    is_truthy_amended.2.2.2 "banana" (by decide) (by decide)⟩⟩

/-- C10: `run_cmd` executes the command string directly when
`is_truthy(local)` is true, and otherwise executes it wrapped in a docker
run invocation of `name:image_ver` with the current working directory
mounted at /local; in both branches it returns the result of the single
`context.run` call. -/
theorem runCmd_local_or_docker {R : Type} (ctxRun : RunCall → R)
    (pwd exec_cmd name image_ver : String) (loc : PyArg) :
    (is_truthy loc = .ok true →
      runCmd ctxRun pwd exec_cmd name image_ver loc = .ok (ctxRun ⟨exec_cmd, true⟩)) ∧
    (is_truthy loc = .ok false →
      runCmd ctxRun pwd exec_cmd name image_ver loc =
        .ok (ctxRun ⟨dockerCommand pwd name image_ver exec_cmd, true⟩)) := by
  constructor
  · intro h
    simp [runCmd, h]
  · intro h
    simp [runCmd, h]

/-- Witness for C10 with a context that records the command it was asked
to run, at both a truthy and a falsy local flag. -/
theorem runCmd_local_or_docker_witness :
    (is_truthy (.bool true) = .ok true ∧
      runCmd RunCall.cmd "/repo" "flake8 ." "schema-enforcer-py3.7" "1.0" (.bool true)
        = .ok "flake8 .") ∧
    (is_truthy (.bool false) = .ok false ∧
      runCmd RunCall.cmd "/repo" "flake8 ." "schema-enforcer-py3.7" "1.0" (.bool false)
        = .ok (dockerCommand "/repo" "schema-enforcer-py3.7" "1.0" "flake8 .")) :=
  ⟨⟨rfl, (runCmd_local_or_docker RunCall.cmd "/repo" "flake8 ."
      "schema-enforcer-py3.7" "1.0" (.bool true)).1 rfl⟩,
   ⟨rfl, (runCmd_local_or_docker RunCall.cmd "/repo" "flake8 ."
      "schema-enforcer-py3.7" "1.0" (.bool false)).2 rfl⟩⟩

/-- C2: when an instance path matches an explicit mapping rule,
`resolve` returns exactly that rule's schema identifier list; convention
matching is skipped, so any schema whose applies-to keys intersect the
instance's top-level keys but which is not in the rule is excluded from
the resolved set. -/
theorem resolve_explicit_rule_authoritative (path : String) (topKeys : List String)
    (rules : List (String × List String)) (store : List (String × Schema))
    (ids : List String) (hrule : findRule rules path = some ids) :
    resolve path topKeys rules store = ids ∧
      ∀ sid s, (sid, s) ∈ store → (∃ k ∈ s.appliesTo, k ∈ topKeys) → sid ∉ ids →
        sid ∉ resolve path topKeys rules store := by
  have hres : resolve path topKeys rules store = ids := by
    simp [resolve, hrule]
  exact ⟨hres, fun sid s _ _ hnot => hres ▸ hnot⟩

/-- Witness for C2: the test configuration's rule `dns.yml ↦
[schemas/dns_servers]` beats a store schema `schemas/ntp` whose
applies-to key `ntp` intersects the instance's top-level keys. -/
theorem resolve_explicit_rule_authoritative_witness :
    findRule [("dns.yml", ["schemas/dns_servers"])] "hostvars/router1/dns.yml"
        = some ["schemas/dns_servers"] ∧
      (resolve "hostvars/router1/dns.yml" ["ntp", "dns_servers"]
          [("dns.yml", ["schemas/dns_servers"])]
          [("schemas/ntp", ⟨["ntp"], .anyDef⟩)] = ["schemas/dns_servers"] ∧
        ∀ sid s, (sid, s) ∈ [("schemas/ntp", (⟨["ntp"], .anyDef⟩ : Schema))] →
          (∃ k ∈ s.appliesTo, k ∈ ["ntp", "dns_servers"]) →
          sid ∉ ["schemas/dns_servers"] →
          sid ∉ resolve "hostvars/router1/dns.yml" ["ntp", "dns_servers"]
            [("dns.yml", ["schemas/dns_servers"])]
            [("schemas/ntp", ⟨["ntp"], .anyDef⟩)]) :=
  ⟨rfl, resolve_explicit_rule_authoritative "hostvars/router1/dns.yml"
    ["ntp", "dns_servers"] [("dns.yml", ["schemas/dns_servers"])]
    [("schemas/ntp", ⟨["ntp"], .anyDef⟩)] ["schemas/dns_servers"] rfl⟩

/-- C7: the Fixture Tester runs the Validator on every fixture and
compares the actual outcome with the expectation derived from the
fixture's group: a "pass"-group fixture matches exactly when validation
PASSes and a "fail"-group fixture exactly when it FAILs; a mismatch in
either direction is reported (as `isMatch = false`). -/
theorem test_schema_two_directional (sid : String) (s : Schema)
    (fixtures : List Fixture) (f : Fixture) (hf : f ∈ fixtures) :
    ∃ r ∈ test_schema sid s fixtures,
      r.fixturePath = f.path ∧
      r.expected = expectedOutcome f.group ∧
      r.actual = (validate sid s ⟨f.path, f.doc⟩).outcome ∧
      (r.isMatch = true ↔
        ((f.group = .passGroup → (validate sid s ⟨f.path, f.doc⟩).outcome = .PASS) ∧
         (f.group = .failGroup → (validate sid s ⟨f.path, f.doc⟩).outcome = .FAIL))) := by
  refine ⟨⟨sid, f.path, expectedOutcome f.group,
    (validate sid s ⟨f.path, f.doc⟩).outcome⟩, ?_, rfl, rfl, rfl, ?_⟩
  · exact List.mem_map.mpr ⟨f, hf, rfl⟩
  · cases hg : f.group
    · simp only [FixtureTestResult.isMatch, expectedOutcome, beq_iff_eq,
        reduceCtorEq, false_implies, and_true, eq_self_iff_true, true_implies]
      exact eq_comm
    · simp only [FixtureTestResult.isMatch, expectedOutcome, beq_iff_eq,
        reduceCtorEq, false_implies, true_and, eq_self_iff_true, true_implies]
      exact eq_comm

/-- Witness for C7: a "fail"-group fixture that validates successfully
against a permissive schema is reported as a mismatch. -/
theorem test_schema_two_directional_witness :
    (⟨"invalid_fixture.yml", .failGroup, .obj []⟩ : Fixture) ∈
        [(⟨"invalid_fixture.yml", .failGroup, .obj []⟩ : Fixture)] ∧
      ∃ r ∈ test_schema "schemas/dns_servers" ⟨["dns_servers"], .anyDef⟩
          [⟨"invalid_fixture.yml", .failGroup, .obj []⟩],
        r.fixturePath = "invalid_fixture.yml" ∧
        r.expected = expectedOutcome .failGroup ∧
        r.actual = (validate "schemas/dns_servers" ⟨["dns_servers"], .anyDef⟩
          ⟨"invalid_fixture.yml", .obj []⟩).outcome ∧
        (r.isMatch = true ↔
          ((FixtureGroup.failGroup = .passGroup →
              (validate "schemas/dns_servers" ⟨["dns_servers"], .anyDef⟩
                ⟨"invalid_fixture.yml", .obj []⟩).outcome = .PASS) ∧
           (FixtureGroup.failGroup = .failGroup →
              (validate "schemas/dns_servers" ⟨["dns_servers"], .anyDef⟩
                ⟨"invalid_fixture.yml", .obj []⟩).outcome = .FAIL))) :=
  ⟨List.mem_singleton.mpr rfl,
    test_schema_two_directional "schemas/dns_servers" ⟨["dns_servers"], .anyDef⟩
      [⟨"invalid_fixture.yml", .failGroup, .obj []⟩]
      ⟨"invalid_fixture.yml", .failGroup, .obj []⟩ (List.mem_singleton.mpr rfl)⟩

/-- C8: an instance for which the Matcher resolves zero schemas yields the
distinguished "unmatched" marker rather than any ValidationResult, and a
run whose instances are all unmatched (with no fixture mismatches and no
load errors) still summarizes to overall success. -/
theorem unmatched_marker_informational (instances : List InstanceDoc)
    (rules : List (String × List String)) (store : List (String × Schema))
    (hall : ∀ inst ∈ instances,
      resolve inst.path (topLevelKeys inst.doc) rules store = []) :
    (∀ inst ∈ instances,
      InstanceOutcome.unmatched inst.path ∈ validate_all instances rules store) ∧
    collectValidationResults (validate_all instances rules store) = [] ∧
    summarize ⟨collectValidationResults (validate_all instances rules store),
      [], []⟩ = true := by
  have hmap : ∀ inst ∈ instances,
      validateInstance rules store inst = InstanceOutcome.unmatched inst.path := by
    intro inst hinst
    simp only [validateInstance, hall inst hinst]
    rfl
  have hcollect : collectValidationResults (validate_all instances rules store) = [] := by
    rw [validate_all, collectValidationResults, List.flatMap_map]
    apply List.flatMap_eq_nil_iff.mpr
    intro inst hinst
    simp only [Function.comp_apply, hmap inst hinst]
    rfl
  refine ⟨?_, hcollect, ?_⟩
  · intro inst hinst
    rw [validate_all]
    exact List.mem_map.mpr ⟨inst, hinst, hmap inst hinst⟩
  · rw [hcollect]
    rfl

/-- Witness for C8 with one instance whose top-level keys intersect no
schema's applies-to set and which no explicit rule covers. -/
theorem unmatched_marker_informational_witness :
    (∀ inst ∈ [(⟨"hostvars/router1/misc.yml", .obj [("misc", .null)]⟩ : InstanceDoc)],
      resolve inst.path (topLevelKeys inst.doc) []
        [("schemas/ntp", ⟨["ntp"], .anyDef⟩)] = []) ∧
    ((∀ inst ∈ [(⟨"hostvars/router1/misc.yml", .obj [("misc", .null)]⟩ : InstanceDoc)],
      InstanceOutcome.unmatched inst.path ∈
        validate_all [⟨"hostvars/router1/misc.yml", .obj [("misc", .null)]⟩]
          [] [("schemas/ntp", ⟨["ntp"], .anyDef⟩)]) ∧
    collectValidationResults
      (validate_all [⟨"hostvars/router1/misc.yml", .obj [("misc", .null)]⟩]
        [] [("schemas/ntp", ⟨["ntp"], .anyDef⟩)]) = [] ∧
    summarize ⟨collectValidationResults
      (validate_all [⟨"hostvars/router1/misc.yml", .obj [("misc", .null)]⟩]
        [] [("schemas/ntp", ⟨["ntp"], .anyDef⟩)]), [], []⟩ = true) :=
  ⟨fun inst hinst => by
      rw [List.mem_singleton.mp hinst]
      rfl,
    unmatched_marker_informational
      [⟨"hostvars/router1/misc.yml", .obj [("misc", .null)]⟩]
      [] [("schemas/ntp", ⟨["ntp"], .anyDef⟩)]
      (fun inst hinst => by
        rw [List.mem_singleton.mp hinst]
        rfl)⟩

/-- Inversion of a successful load: the identifiers of the parsed entries
were distinct, the store is the lexicographically sorted entry list, and
the error list is exactly the parse failures. -/
lemma load_ok_elim {files : List SchemaFile} {store : List (String × Schema)}
    {errs : List (String × String)} (h : load files = .ok (store, errs)) :
    ((parsedEntries files).map Prod.fst).Nodup ∧
      store = List.insertionSort idLe (parsedEntries files) ∧
      errs = parseErrorsOf files := by
  by_cases hnd : ((parsedEntries files).map Prod.fst).Nodup
  · unfold load at h
    rw [if_pos hnd] at h
    injection h with h
    obtain ⟨h1, h2⟩ := Prod.mk.injEq .. ▸ h
    exact ⟨hnd, h1.symm, h2.symm⟩
  · unfold load at h
    rw [if_neg hnd] at h
    exact Except.noConfusion h

/-- C3: Schema Store load is partial-failure tolerant except for duplicate
identifiers.  On a successful load every file that failed to parse is
recorded as a load error (path and message) and never contributes a store
entry, while every file that parsed is loaded; and any two files in the
walk that normalize to the same identifier make the whole build fail with
`DuplicateSchemaIdentifier`. -/
theorem load_partial_tolerant_duplicates_fatal (files : List SchemaFile) :
    (∀ store errs, load files = .ok (store, errs) →
      ((∀ f ∈ files, ∀ m, f.parsed = .error m → (f.path, m) ∈ errs) ∧
       (∀ g ∈ files, ∀ s, g.parsed = .ok s → (identifierOf g.path, s) ∈ store) ∧
       (∀ sid s, (sid, s) ∈ store →
          ∃ g ∈ files, g.parsed = .ok s ∧ identifierOf g.path = sid))) ∧
    (∀ l1 f l2 g l3 s t, files = l1 ++ f :: l2 ++ g :: l3 →
      f.parsed = .ok s → g.parsed = .ok t →
      identifierOf f.path = identifierOf g.path →
      load files = .error .duplicateSchemaIdentifier) := by
  constructor
  · intro store errs hok
    obtain ⟨hnd, hstore, herrs⟩ := load_ok_elim hok
    have hmem : ∀ a : String × Schema, a ∈ store ↔ a ∈ parsedEntries files := by
      intro a
      rw [hstore]
      exact (List.perm_insertionSort idLe (parsedEntries files)).mem_iff
    refine ⟨?_, ?_, ?_⟩
    · intro f hf m hm
      rw [herrs]
      exact List.mem_filterMap.mpr ⟨f, hf, by rw [hm]⟩
    · intro g hg s hs
      exact (hmem _).mpr (List.mem_filterMap.mpr ⟨g, hg, by rw [hs]⟩)
    · intro sid s hmem2
      obtain ⟨g, hg, hsome⟩ := List.mem_filterMap.mp ((hmem _).mp hmem2)
      refine ⟨g, hg, ?_⟩
      cases hp : g.parsed with
      | ok s2 =>
        rw [hp] at hsome
        injection hsome with hsome
        obtain ⟨h1, h2⟩ := Prod.mk.injEq .. ▸ hsome
        cases h2
        exact ⟨rfl, h1⟩
      | error m =>
        rw [hp] at hsome
        exact Option.noConfusion hsome
  · intro l1 f l2 g l3 s t hsplit hf hg hid
    have hform : (parsedEntries files).map Prod.fst =
        (parsedEntries l1).map Prod.fst ++ identifierOf f.path ::
          ((parsedEntries l2).map Prod.fst ++ identifierOf f.path ::
            (parsedEntries l3).map Prod.fst) := by
      rw [hsplit]
      simp [parsedEntries, List.filterMap_append, List.filterMap_cons, hf, hg, ← hid]
    have hnotdup : ¬ ((parsedEntries files).map Prod.fst).Nodup := by
      rw [hform]
      intro hnd
      have hnd2 := hnd.of_append_right
      have hmem := List.mem_append_right ((parsedEntries l2).map Prod.fst)
        (List.mem_cons_self (identifierOf f.path) ((parsedEntries l3).map Prod.fst))
      exact (List.nodup_cons.mp hnd2).1 hmem
    unfold load
    rw [if_neg hnotdup]

/-- Witness for C3: a store with one well-formed file, one unparsable file
(recorded, not fatal), and separately a pair of files normalizing to the
same identifier (fatal). -/
theorem load_partial_tolerant_duplicates_fatal_witness :
    (load [⟨"schemas/ntp.yml", .ok ⟨["ntp"], .anyDef⟩⟩,
           ⟨"schemas/bad.yml", .error "parse error"⟩]
        = .ok ([("schemas/ntp", ⟨["ntp"], .anyDef⟩)],
               [("schemas/bad.yml", "parse error")]) ∧
      ("schemas/bad.yml", "parse error") ∈
        [("schemas/bad.yml", "parse error")] ∧
      ("schemas/ntp", (⟨["ntp"], .anyDef⟩ : Schema)) ∈
        [("schemas/ntp", (⟨["ntp"], .anyDef⟩ : Schema))]) ∧
    load [⟨"schemas/ntp.yml", .ok ⟨["ntp"], .anyDef⟩⟩,
          ⟨"schemas/ntp.yaml", .ok ⟨["ntp"], .anyDef⟩⟩]
      = .error .duplicateSchemaIdentifier := by
  refine ⟨⟨by rfl, ?_, ?_⟩, ?_⟩
  · have h := ((load_partial_tolerant_duplicates_fatal
      [⟨"schemas/ntp.yml", .ok ⟨["ntp"], .anyDef⟩⟩,
       ⟨"schemas/bad.yml", .error "parse error"⟩]).1
      [("schemas/ntp", ⟨["ntp"], .anyDef⟩)] [("schemas/bad.yml", "parse error")]
      (by rfl)).1 ⟨"schemas/bad.yml", .error "parse error"⟩ (by simp) "parse error" rfl
    exact h
  · have h := ((load_partial_tolerant_duplicates_fatal
      [⟨"schemas/ntp.yml", .ok ⟨["ntp"], .anyDef⟩⟩,
       ⟨"schemas/bad.yml", .error "parse error"⟩]).1
      [("schemas/ntp", ⟨["ntp"], .anyDef⟩)] [("schemas/bad.yml", "parse error")]
      (by rfl)).2.1 ⟨"schemas/ntp.yml", .ok ⟨["ntp"], .anyDef⟩⟩ (by simp)
      ⟨["ntp"], .anyDef⟩ rfl
    have hid : identifierOf "schemas/ntp.yml" = "schemas/ntp" := by rfl
    rw [hid] at h
    exact h
  · exact (load_partial_tolerant_duplicates_fatal
      [⟨"schemas/ntp.yml", .ok ⟨["ntp"], .anyDef⟩⟩,
       ⟨"schemas/ntp.yaml", .ok ⟨["ntp"], .anyDef⟩⟩]).2
      [] ⟨"schemas/ntp.yml", .ok ⟨["ntp"], .anyDef⟩⟩ []
      ⟨"schemas/ntp.yaml", .ok ⟨["ntp"], .anyDef⟩⟩ []
      ⟨["ntp"], .anyDef⟩ ⟨["ntp"], .anyDef⟩ rfl rfl rfl (by rfl)

/-- On a successful load the store's identifiers are distinct and the
store is strictly increasing on identifiers. -/
lemma load_store_strict_sorted {files : List SchemaFile}
    {store : List (String × Schema)} {errs : List (String × String)}
    (h : load files = .ok (store, errs)) :
    (store.map Prod.fst).Nodup ∧ store.Pairwise idLt := by
  obtain ⟨hnd, hstore, -⟩ := load_ok_elim h
  have hperm : store.Perm (parsedEntries files) :=
    hstore ▸ List.perm_insertionSort idLe (parsedEntries files)
  have hndstore : (store.map Prod.fst).Nodup :=
    ((hperm.map Prod.fst).nodup_iff).mpr hnd
  have hsorted : store.Pairwise idLe := by
    rw [hstore]
    exact List.sorted_insertionSort idLe (parsedEntries files)
  have hne : store.Pairwise (fun a b : String × Schema => a.1 ≠ b.1) :=
    (List.pairwise_map).mp hndstore
  exact ⟨hndstore, (hsorted.and hne).imp (fun hab => lt_of_le_of_ne hab.1 hab.2)⟩

/-- The three schema files of the end-to-end scenario, deliberately listed
in non-lexicographic discovery order. -/
def threeFiles : List SchemaFile :=
  [⟨"schemas/ntp.yml", .ok ⟨["ntp"], .anyDef⟩⟩,
   ⟨"schemas/syslog_servers.yml", .ok ⟨["syslog_servers"], .anyDef⟩⟩,
   ⟨"schemas/dns_servers.yml", .ok ⟨["dns_servers"], .anyDef⟩⟩]

/-- The same three files discovered in yet another order. -/
def threeFilesShuffled : List SchemaFile :=
  [⟨"schemas/syslog_servers.yml", .ok ⟨["syslog_servers"], .anyDef⟩⟩,
   ⟨"schemas/ntp.yml", .ok ⟨["ntp"], .anyDef⟩⟩,
   ⟨"schemas/dns_servers.yml", .ok ⟨["dns_servers"], .anyDef⟩⟩]

/-- The store both discovery orders must produce. -/
def threeStore : List (String × Schema) :=
  [("schemas/dns_servers", ⟨["dns_servers"], .anyDef⟩),
   ("schemas/ntp", ⟨["ntp"], .anyDef⟩),
   ("schemas/syslog_servers", ⟨["syslog_servers"], .anyDef⟩)]

/-- C4: iterating a loaded store yields each identifier exactly once, in
lexicographic order by identifier, and the store is independent of the
filesystem enumeration order; in particular the three files
schemas/dns_servers.yml, schemas/ntp.yml, schemas/syslog_servers.yml
yield exactly the identifiers schemas/dns_servers, schemas/ntp,
schemas/syslog_servers, each exactly once. -/
theorem iter_schemas_each_once_lexicographic :
    (∀ files store errs, load files = .ok (store, errs) →
      ((store.map Prod.fst).Nodup ∧ (store.map Prod.fst).Sorted (· < ·))) ∧
    (∀ files files2 store errs store2 errs2, files.Perm files2 →
      load files = .ok (store, errs) → load files2 = .ok (store2, errs2) →
      store = store2) ∧
    (load threeFiles).toOption.map (fun p => p.1.map Prod.fst)
      = some ["schemas/dns_servers", "schemas/ntp", "schemas/syslog_servers"] := by
  refine ⟨?_, ?_, ?_⟩
  · intro files store errs h
    obtain ⟨hnd, hlt⟩ := load_store_strict_sorted h
    exact ⟨hnd, (List.pairwise_map).mpr hlt⟩
  · intro files files2 store errs store2 errs2 hperm h1 h2
    obtain ⟨-, hlt1⟩ := load_store_strict_sorted h1
    obtain ⟨-, hlt2⟩ := load_store_strict_sorted h2
    obtain ⟨-, hstore1, -⟩ := load_ok_elim h1
    obtain ⟨-, hstore2, -⟩ := load_ok_elim h2
    have hpe : (parsedEntries files).Perm (parsedEntries files2) :=
      hperm.filterMap _
    have hp : store.Perm store2 := by
      rw [hstore1, hstore2]
      exact (List.perm_insertionSort ..).trans
        (hpe.trans (List.perm_insertionSort ..).symm)
    exact List.eq_of_perm_of_sorted hp hlt1 hlt2
  · rfl

/-- Witness for C4: the two discovery orders of the three scenario files
load to the same lexicographically sorted store. -/
theorem iter_schemas_each_once_lexicographic_witness :
    threeFiles.Perm threeFilesShuffled ∧
    load threeFiles = .ok (threeStore, []) ∧
    load threeFilesShuffled = .ok (threeStore, []) ∧
    threeStore = threeStore :=
  ⟨List.Perm.swap _ _ _, rfl, rfl,
    iter_schemas_each_once_lexicographic.2.1 threeFiles threeFilesShuffled
      threeStore [] threeStore [] (List.Perm.swap _ _ _) rfl rfl⟩

/-- Property-wise error collection distributes over concatenation of the
declared property list. -/
lemma collectProps_append (path : List String) (l1 l2 : List (String × SchemaDef))
    (fields : List (String × Doc)) :
    collectProps path (l1 ++ l2) fields =
      collectProps path l1 fields ++ collectProps path l2 fields := by
  induction l1 with
  | nil => simp [collectProps]
  | cons a t ih =>
    obtain ⟨k, sub⟩ := a
    simp [collectProps, ih]

/-- C6: the Validator collects all violations in one pass rather than
stopping at the first error, and orders the error records of one instance
by document traversal order: for any two declared properties, in
declaration order, the complete error lists of both subtrees appear in
the object's error list, the first before the second, whatever errors
precede them. -/
theorem validator_collects_all_in_traversal_order (path : List String)
    (required : List String) (l1 l2 l3 : List (String × SchemaDef))
    (k1 k2 : String) (s1 s2 : SchemaDef) (fields : List (String × Doc))
    (d1 d2 : Doc)
    (h1 : lookupField fields k1 = some d1) (h2 : lookupField fields k2 = some d2) :
    ∃ pre mid post,
      collectErrors path
          (.obj required (l1 ++ (k1, s1) :: l2 ++ (k2, s2) :: l3)) (.obj fields)
        = pre ++ collectErrors (path ++ [k1]) s1 d1 ++ mid
            ++ collectErrors (path ++ [k2]) s2 d2 ++ post := by
  refine ⟨(required.filter (fun k => (lookupField fields k).isNone)).map
      (fun k => ⟨path, "required property " ++ k ++ " missing"⟩)
      ++ collectProps path l1 fields,
    collectProps path l2 fields, collectProps path l3 fields, ?_⟩
  simp [collectErrors, collectProps, collectProps_append, h1, h2]

/-- Witness for C6: a two-property object schema whose fields both violate
their declared types; both errors are collected, a-errors before
b-errors. -/
theorem validator_collects_all_in_traversal_order_witness :
    lookupField [("a", .boolean true), ("b", .str "x")] "a" = some (.boolean true) ∧
    lookupField [("a", .boolean true), ("b", .str "x")] "b" = some (.str "x") ∧
    ∃ pre mid post,
      collectErrors []
          (.obj [] ([] ++ ("a", SchemaDef.string) :: [] ++ ("b", SchemaDef.number) :: []))
          (.obj [("a", .boolean true), ("b", .str "x")])
        = pre ++ collectErrors ([] ++ ["a"]) .string (.boolean true) ++ mid
            ++ collectErrors ([] ++ ["b"]) .number (.str "x") ++ post :=
  ⟨rfl, rfl,
    validator_collects_all_in_traversal_order [] [] [] [] [] "a" "b"
      .string .number [("a", .boolean true), ("b", .str "x")]
      (.boolean true) (.str "x") rfl rfl⟩

end SchemaEnforcer
